import Mathlib

/-!
Verification development for the template engine in `applyconf.py`
(class `Template`: `_build_code`, `_expr_code`, `_parse_pipe`, `_isint`,
`_variable`, `_do_dots`, `render`, and the `whitespace_control` helper).

The Python code is shallowly embedded: Python strings become `List Char`
(named `Str` below), the generated render function becomes a statement AST
(`Stmt`) produced by the compiler and executed by an interpreter, Python
exceptions become `Except` errors.  Each definition mirrors the source
line by line; comments cite the corresponding source construct.
-/

set_option maxRecDepth 10000

/-- Python strings are modelled as lists of characters. -/
abbrev Str := List Char

/-- Python `str.isspace` for the ASCII whitespace characters that can occur
in template text (space, tab, newline, carriage return, vertical tab,
form feed). -/
def pyIsSpace (c : Char) : Bool :=
  c = ' ' || c = '\t' || c = '\n' || c = '\r' || c = '\x0b' || c = '\x0c'

/-- Python `str.strip()`: remove leading and trailing whitespace. -/
def pyStrip (s : Str) : Str :=
  ((s.dropWhile pyIsSpace).reverse.dropWhile pyIsSpace).reverse

/-- Python `str.rstrip()`: remove trailing whitespace. -/
def pyRstrip (s : Str) : Str :=
  (s.reverse.dropWhile pyIsSpace).reverse

/-- Python `str.rfind(c)` for a single character: index of the last
occurrence, `none` when absent (Python returns `-1`). -/
def rfindChar (c : Char) : Str → Option Nat
  | [] => none
  | a :: rest =>
    match rfindChar c rest with
    | some i => some (i + 1)
    | none => if a = c then some 0 else none

/-- Python `str.find(c)` for a single character: index of the first
occurrence, `none` when absent (Python returns `-1`). -/
def findChar (c : Char) : Str → Option Nat
  | [] => none
  | a :: rest =>
    if a = c then some 0
    else (findChar c rest).map (· + 1)

/-- Python `str.split(sep)` for a single-character separator: keeps empty
fields, `"".split(sep) == [""]`. -/
def splitCh (c : Char) : Str → List Str
  | [] => [[]]
  | a :: rest =>
    match splitCh c rest with
    | [] => [[]]
    | r :: rs => if a = c then [] :: r :: rs else (a :: r) :: rs

/-- Python `str.split()` with no separator: split on whitespace runs,
discarding empty fields. -/
def pySplitWs : Str → List Str :=
  go []
where
  /-- `acc` is the current word, reversed. -/
  go (acc : Str) : Str → List Str
    | [] => if acc = [] then [] else [acc.reverse]
    | c :: rest =>
      if pyIsSpace c then
        if acc = [] then go [] rest else acc.reverse :: go [] rest
      else
        go (c :: acc) rest

/-- Python `" ".join(words)`. -/
def joinSp (ws : List Str) : Str := List.intercalate [' '] ws

/-- Python `"".join(parts)`. -/
def strJoin (ls : List Str) : Str := ls.flatten

/-- Split a character list at the first occurrence of the two-character
sequence `c1 c2`; returns the part before and the part after the
sequence.  Used to model the non-greedy `.*?` of the tokenizing regex. -/
def splitAtSub (c1 c2 : Char) : Str → Option (Str × Str)
  | [] => none
  | [_] => none
  | a :: b :: rest =>
    if a = c1 ∧ b = c2 then some ([], rest)
    else
      match splitAtSub c1 c2 (b :: rest) with
      | some (p, s) => some (a :: p, s)
      | none => none

/-- Prepend a literal character to the first (literal) entry of a token
list produced by the tokenizer. -/
def consLit (c : Char) : List Str → List Str
  | [] => [[c]]
  | lit :: more => (c :: lit) :: more

/-- Fuel-driven scanner for the tokenizing regex; every step consumes at
least one input character and spends one unit of fuel, so with fuel
`l.length + 1` (as supplied by `tokenizeL`) the fuel never runs out and
the zero-fuel fallback is unreachable. -/
def tokenizeF : Nat → Str → List Str
  | 0, l => [l]
  | _ + 1, [] => [[]]
  | fuel + 1, '{' :: '{' :: rest2 =>
    (match splitAtSub '}' '}' rest2 with
     | some (inner, after) =>
       [] :: ('{' :: '{' :: (inner ++ ['}', '}'])) :: tokenizeF fuel after
     | none => consLit '{' (tokenizeF fuel ('{' :: rest2)))
  | fuel + 1, '{' :: '%' :: rest2 =>
    (match splitAtSub '%' '}' rest2 with
     | some (inner, after) =>
       [] :: ('{' :: '%' :: (inner ++ ['%', '}'])) :: tokenizeF fuel after
     | none => consLit '{' (tokenizeF fuel ('%' :: rest2)))
  | fuel + 1, '{' :: '#' :: rest2 =>
    (match splitAtSub '#' '}' rest2 with
     | some (inner, after) =>
       [] :: ('{' :: '#' :: (inner ++ ['#', '}'])) :: tokenizeF fuel after
     | none => consLit '{' (tokenizeF fuel ('#' :: rest2)))
  | fuel + 1, c :: rest => consLit c (tokenizeF fuel rest)

/-- Model of `re.split(r"(?s)({{.*?}}|{%.*?%}|{#.*?#})", text)` in
`Template._build_code`: the result interleaves literal text with marker
tokens, starting and ending with (possibly empty) literal text.  At each
position the earliest, shortest marker match wins, exactly as with the
non-greedy leftmost-match regex. -/
def tokenizeL (l : Str) : List Str := tokenizeF (l.length + 1) l

/-- Python slice `s[a:len(s)-b]` with clamping, as used on tokens
(`token[2:-2]`, `token[3:-2]`). -/
def pySlice (s : Str) (a b : Nat) : Str :=
  (s.drop a).take (s.length - a - b)

/-! ## Values

Runtime values of the render context.  Python callables are modelled by
the closed operation type `FnOp` with semantics `applyFn`; `vobj` carries
an attribute table (for `getattr`) and an item table (for `value[dot]`).
Python `str()` of containers prints element reprs; the claims never
stringify containers or callables, so `pyToStr` renders them in a fixed
simplified form. -/

/-- Operations a context callable can perform.  `packFn` returns the full
positional-argument list as a value, which makes argument threading
observable; `constStr` ignores its arguments. -/
inductive FnOp where
  | packFn : FnOp
  | constStr : Str → FnOp
  | upperFn : FnOp
deriving DecidableEq, Repr

inductive Value where
  | vstr : Str → Value
  | vint : Int → Value
  | vbool : Bool → Value
  | vnone : Value
  | vlist : List Value → Value
  | vdict : List (Str × Value) → Value
  | vobj : List (Str × Value) → List (Str × Value) → Value
  | vfunc : FnOp → Value
deriving Repr

/-- Calling a callable with a positional-argument list. -/
def applyFn : FnOp → List Value → Value
  | .packFn, args => .vlist args
  | .constStr s, _ => .vstr s
  | .upperFn, args =>
    match args with
    | [.vstr s] => .vstr (s.map Char.toUpper)
    | _ => .vnone

/-- Python truthiness, used by the generated `if`/`elif` statements. -/
def truthy : Value → Bool
  | .vstr s => !s.isEmpty
  | .vint n => n ≠ 0
  | .vbool b => b
  | .vnone => false
  | .vlist l => !l.isEmpty
  | .vdict d => !d.isEmpty
  | .vobj _ _ => true
  | .vfunc _ => true

/-- Python `str(value)` (the `to_str` of the generated code) for the value
forms the claims exercise; containers and callables get fixed
placeholder renderings. -/
def pyToStr : Value → Str
  | .vstr s => s
  | .vint n => (toString n).data
  | .vbool b => if b then "True".data else "False".data
  | .vnone => "None".data
  | .vlist _ => "<list>".data
  | .vdict _ => "<dict>".data
  | .vobj _ _ => "<object>".data
  | .vfunc _ => "<function>".data

/-! ## Errors -/

/-- Errors raised while compiling a template (`Template.__init__`).
`stxError msg thing` models `Template._syntax_error(msg, thing)`, which
raises `Error("{msg}: {repr(thing)}")`; the message and the offending
thing are kept structured here.  `pyIndexError` models the uncaught
`IndexError` from `words[0]` on an empty action token, `pyExecError`
models the `exec` of generated code failing (e.g. an empty `if` body
produces an indentation error in the generated source), and `fuelOut`
is an artificial bound never reached by the recursion of `_expr_code`
(each recursive call strictly shrinks its input). -/
inductive CErr where
  | stxError : String → Str → CErr
  | pyIndexError : CErr
  | pyExecError : CErr
  | fuelOut : CErr
deriving DecidableEq, Repr

/-- Render-time errors: `keyError n` is Python `KeyError` (missing context
key or missing item key), `nameError n` is `NameError`/`UnboundLocalError`
for an unbound generated local `c_n`, `typeError` covers calling a
non-callable and iterating a non-iterable; `outOfFuel` is the artificial
interpreter bound of the embedding, unreachable for the renders studied
here. -/
inductive RErr where
  | keyError : Str → RErr
  | nameError : Str → RErr
  | typeError : String → RErr
  | outOfFuel : RErr
deriving DecidableEq, Repr

/-! ## Expression AST

`Template._expr_code` emits a Python expression string; its grammar after
compilation is exactly: a string literal (`repr("")` or `repr(expr)` for
integer-looking text), a context local `c_name`, a `do_dots(base, names...)`
call, or a filter call `c_f(seed, args...)`. -/

inductive Expr where
  | elit : Str → Expr
  | evar : Str → Expr
  | edots : Expr → List Str → Expr
  | ecall : Str → List Expr → Expr
deriving Repr

/-! ## Compilation state -/

/-- The variable bookkeeping of `Template.__init__`: `self._all_vars` and
`self._loop_vars`.  Python uses unordered sets; they are modelled as
duplicate-free lists in first-insertion order (only membership matters).
`genBad` records that the token stream forced `_build_code` to emit
syntactically invalid Python (an empty block body, or `elif`/`else`
after `else`), which makes the `exec` in `CodeBuilder.get_globals` fail
after `_build_code` returns. -/
structure CompSt where
  allVars : List Str
  loopVars : List Str
  genBad : Bool
deriving DecidableEq, Repr

def initCompSt : CompSt := ⟨[], [], false⟩

/-- Add a name to a variable set (`set.add`). -/
def addName (n : Str) (l : List Str) : List Str :=
  if n ∈ l then l else l ++ [n]

/-- The name check of `Template._variable`:
`re.match(r"[_a-zA-Z][_a-zA-Z0-9]*$", what)`. -/
def isValidName : Str → Bool
  | [] => false
  | c :: rest =>
    (c.isAlpha || c = '_') && rest.all (fun d => d.isAlpha || d.isDigit || d = '_')

/-- `Template._variable(what, where)` with `where` one of the two sets or
`None`: validate the name, then add it to the chosen set. -/
def variableCheck (what : Str) : Except CErr Unit :=
  if isValidName what then .ok ()
  else .error (.stxError "Not a valid name" what)

/-- `Template._isint`: `int(expr)` succeeds.  CPython also accepts
underscore digit separators and unicode digits; the template language
only ever produces ASCII content, where `int` accepts an optional sign
followed by one or more ASCII digits. -/
def pyIsInt : Str → Bool
  | [] => false
  | c :: rest =>
    if c = '-' || c = '+' then rest ≠ [] && rest.all Char.isDigit
    else (c :: rest).all Char.isDigit

/-- `Template._parse_pipe`: split one pipe segment into a function name
and raw parameter strings. -/
def parsePipe (pipe0 : Str) : Except CErr (Str × List Str) :=
  let pipe := pyStrip pipe0
  match findChar '(' pipe with
  | none => .ok (pipe, [])
  | some start =>
    let func := pipe.take start
    match rfindChar ')' pipe with
    | some e =>
      if e = pipe.length - 1 then
        .ok (pyStrip func, splitCh ',' ((pipe.drop (start + 1)).take (e - start - 1)))
      else .error (.stxError "Don\x27t understand pipe" pipe)
    | none => .error (.stxError "Don\x27t understand pipe" pipe)

/-! ## Expression compiler

`Template._expr_code` recurses on strictly smaller strings (the seed
before the first `|`, each stripped parameter, the text before the first
`.`), so a fuel of twice the input length plus two is never exhausted;
the fuel only serves to make the recursion structural. -/

mutual

/-- `Template._expr_code(expr)`. -/
def exprCode : Nat → Str → CompSt → Except CErr (Expr × CompSt)
  | 0, _, _ => .error .fuelOut
  | fuel + 1, s, st =>
    let e := pyStrip s
    if e.length = 0 then .ok (.elit [], st)
    else if '|' ∈ e then
      match splitCh '|' e with
      | [] => .error .fuelOut
      | p0 :: rest => do
        let (c0, st) ← exprCode fuel p0 st
        compilePipes fuel c0 rest st
    else if '.' ∈ e then
      match splitCh '.' e with
      | [] => .error .fuelOut
      | d0 :: rest => do
        let (c0, st) ← exprCode fuel d0 st
        .ok (.edots c0 rest, st)
    else if pyIsInt e then .ok (.elit e, st)
    else do
      let _ ← variableCheck e
      .ok (.evar e, ⟨addName e st.allVars, st.loopVars, st.genBad⟩)

/-- The `for pipe in pipes[1:]` loop of `_expr_code`: thread the current
code as the first argument of each filter call. -/
def compilePipes : Nat → Expr → List Str → CompSt → Except CErr (Expr × CompSt)
  | 0, _, _, _ => .error .fuelOut
  | _ + 1, c, [], st => .ok (c, st)
  | fuel + 1, c, pipe :: rest, st => do
    let (func, params) ← parsePipe pipe
    let _ ← variableCheck func
    let st : CompSt := ⟨addName func st.allVars, st.loopVars, st.genBad⟩
    let (pcs, st) ← compileParams fuel params st
    compilePipes fuel (.ecall func (c :: pcs)) rest st

/-- The `params_code` loop of `_expr_code`: compile each parameter after
stripping it. -/
def compileParams : Nat → List Str → CompSt → Except CErr (List Expr × CompSt)
  | 0, _, _ => .error .fuelOut
  | _ + 1, [], st => .ok ([], st)
  | fuel + 1, p :: ps, st => do
    let (e, st) ← exprCode fuel (pyStrip p) st
    let (es, st) ← compileParams fuel ps st
    .ok (e :: es, st)

end

/-- `_expr_code` entry point with sufficient fuel. -/
def exprCodeTop (s : Str) (st : CompSt) : Except CErr (Expr × CompSt) :=
  exprCode (2 * s.length + 2) s st

/-! ## Statement AST

The generated render function is a sequence of statements; `trim` is the
whitespace-control code emitted by `whitespace_control`, the rest mirror
the `code.add_line` calls of `_build_code` one-to-one. -/

inductive Stmt where
  | trim : Stmt
  | emitLit : Str → Stmt
  | emitExpr : Expr → Stmt
  | assign : Str → Expr → Stmt
  | ifStmt : List (Expr × List Stmt) → Option (List Stmt) → Stmt
  | forStmt : Str → Expr → List Stmt → Stmt
deriving Repr

/-- An open block on the `ops_stack` of `_build_code`, together with the
statements accumulated so far.  `fif outer finished curCond`: `outer` is
the statement list surrounding the `if`, `finished` the completed
`if`/`elif` branches, `curCond = some c` while inside a branch with
condition `c` and `none` while inside the `else` branch.  `ffor outer
name iter`: an open `for` block. -/
inductive Frame where
  | fif : List Stmt → List (Expr × List Stmt) → Option Expr → Frame
  | ffor : List Stmt → Str → Expr → Frame
deriving Repr

/-- The kind string kept on `ops_stack` ("if" or "for"). -/
def frameKind : Frame → Str
  | .fif _ _ _ => "if".data
  | .ffor _ _ _ => "for".data

/-- The `whitespace_control` helper inside `_build_code`: returns whether
the token carries a trim marker (`token[2:3] == "-"`, which emits the
output-trimming code) and the stripped marker content (`token[3:-2]` or
`token[2:-2]`, stripped). -/
def wsControl (tok : Str) : Bool × Str :=
  if (tok.drop 2).head? = some '-' then
    (true, pyStrip (pySlice tok 3 2))
  else
    (false, pyStrip (pySlice tok 2 2))

/-- Mark the compile state: the generated source will not be valid Python
(`exec` in `CodeBuilder.get_globals` raises after `_build_code` ends). -/
def markBad (st : CompSt) : CompSt := ⟨st.allVars, st.loopVars, true⟩

/-- Mark the state if a block body being closed is empty: the generated
Python block would have no statement, an `IndentationError` at `exec`
time. -/
def closeBody (cur : List Stmt) (st : CompSt) : CompSt :=
  if cur.isEmpty then markBad st else st

/-- Register a loop variable: `self._variable(words[1], self._loop_vars)`
adds the name only to `_loop_vars`. -/
def addLoopVar (n : Str) (st : CompSt) : CompSt :=
  ⟨st.allVars, addName n st.loopVars, st.genBad⟩

/-- One `{% ... %}` action token of `_build_code`, dispatched on its first
word.  `content` is the stripped token content (the `token` rebound by
`whitespace_control`, used in error messages), `words` is
`content.split()`. -/
def dispatchAction (content : Str) (words : List Str)
    (frames : List Frame) (cur : List Stmt) (st : CompSt) :
    Except CErr (List Frame × List Stmt × CompSt) :=
  match words with
  | [] => .error .pyIndexError
  | w :: args =>
    if w = "set".data then
      -- set <variable> = <condition...>
      match args with
      | name :: eqw :: e0 :: es =>
        if eqw = "=".data then do
          let _ ← variableCheck name
          let (ex, st) ← exprCodeTop (joinSp (e0 :: es)) st
          .ok (frames, cur ++ [.assign name ex], st)
        else .error (.stxError "Don\x27t understand set" content)
      | _ => .error (.stxError "Don\x27t understand set" content)
    else if w = "if".data then
      -- if <condition...>
      match args with
      | [] => .error (.stxError "Don\x27t understand if" content)
      | _ :: _ => do
        let (ex, st) ← exprCodeTop (joinSp args) st
        .ok (.fif cur [] (some ex) :: frames, [], st)
    else if w = "elif".data then
      match args with
      | [] => .error (.stxError "Don\x27t understand elif" content)
      | _ :: _ =>
        match frames with
        | [] => .error (.stxError "Mismatched elif" content)
        | .ffor _ _ _ :: _ => .error (.stxError "Mismatched elif" content)
        | .fif outer fin curCond :: fs => do
          let (ex, st) ← exprCodeTop (joinSp args) st
          let st := closeBody cur st
          match curCond with
          | some c => .ok (.fif outer (fin ++ [(c, cur)]) (some ex) :: fs, [], st)
          | none =>
            -- `elif` directly after `else`: `_build_code` accepts it but
            -- the generated `elif` after an `else:` block is invalid
            -- Python; the previous else body is kept as a dead branch.
            .ok (.fif outer (fin ++ [(.elit [], cur)]) (some ex) :: fs, [], markBad st)
    else if w = "else".data then
      match args with
      | _ :: _ => .error (.stxError "Don\x27t understand else" content)
      | [] =>
        match frames with
        | [] => .error (.stxError "Mismatched else" content)
        | .ffor _ _ _ :: _ => .error (.stxError "Mismatched else" content)
        | .fif outer fin curCond :: fs =>
          let st := closeBody cur st
          match curCond with
          | some c => .ok (.fif outer (fin ++ [(c, cur)]) none :: fs, [], st)
          | none =>
            -- `else` after `else`: invalid generated Python.
            .ok (.fif outer (fin ++ [(.elit [], cur)]) none :: fs, [], markBad st)
    else if w = "for".data then
      -- for <variable> in <condition...>
      match args with
      | name :: inw :: e0 :: es =>
        if inw = "in".data then do
          let _ ← variableCheck name
          let st := addLoopVar name st
          let (ex, st) ← exprCodeTop (joinSp (e0 :: es)) st
          .ok (.ffor cur name ex :: frames, [], st)
        else .error (.stxError "Don\x27t understarnd for" content)
      | _ => .error (.stxError "Don\x27t understarnd for" content)
    else if "end".data.isPrefixOf w then
      match args with
      | _ :: _ => .error (.stxError "Don\x27t understand end" content)
      | [] =>
        let endWhat := w.drop 3
        match frames with
        | [] => .error (.stxError "Too many ends" content)
        | f :: fs =>
          if frameKind f ≠ endWhat then
            .error (.stxError "Mismatched end tag" endWhat)
          else
            let st := closeBody cur st
            match f with
            | .fif outer fin curCond =>
              let node : Stmt :=
                match curCond with
                | some c => .ifStmt (fin ++ [(c, cur)]) none
                | none => .ifStmt fin (some cur)
              .ok (fs, outer ++ [node], st)
            | .ffor outer name iter =>
              .ok (fs, outer ++ [.forStmt name iter cur], st)
    else .error (.stxError "Don\x27t understand tag" w)

/-- The token loop of `Template._build_code`. -/
def buildLoop : List Str → List Frame → List Stmt → CompSt →
    Except CErr (List Stmt × CompSt)
  | [], frames, cur, st =>
    match frames with
    | [] => .ok (cur, st)
    | f :: _ => .error (.stxError "Unmatched action tag" (frameKind f))
  | tok :: rest, frames, cur, st =>
    if "\x7b#".data.isPrefixOf tok then
      -- Just a comment: whitespace control only.
      let (dash, _) := wsControl tok
      buildLoop rest frames (if dash then cur ++ [.trim] else cur) st
    else if "\x7b\x7b".data.isPrefixOf tok then
      -- Output some value.
      let (dash, content) := wsControl tok
      let cur := if dash then cur ++ [.trim] else cur
      match exprCodeTop content st with
      | .error e => .error e
      | .ok (ex, st) => buildLoop rest frames (cur ++ [.emitExpr ex]) st
    else if "\x7b%".data.isPrefixOf tok then
      -- An action.
      let (dash, content) := wsControl tok
      let cur := if dash then cur ++ [.trim] else cur
      match dispatchAction content (pySplitWs content) frames cur st with
      | .error e => .error e
      | .ok (frames, cur, st) => buildLoop rest frames cur st
    else
      -- Literal content.
      buildLoop rest frames (if tok ≠ [] then cur ++ [.emitLit tok] else cur) st

/-- The result of `Template.__init__`: the compiled body together with
the final variable sets. -/
structure Compiled where
  body : List Stmt
  allVars : List Str
  loopVars : List Str
deriving Repr

/-- `Template.__init__` on in-memory text: run `_build_code`, then `exec`
the generated source (which fails iff invalid code was emitted). -/
def compileTemplate (text : String) : Except CErr Compiled :=
  match buildLoop (tokenizeL text.data) [] [] initCompSt with
  | .error e => .error e
  | .ok (body, st) =>
    if st.genBad then .error .pyExecError
    else .ok ⟨body, st.allVars, st.loopVars⟩

/-- The names bound from the render context by the generated prologue:
`self._all_vars - self._loop_vars` (line 201), kept in `_all_vars`
insertion order (Python iterates the set difference in unspecified
order; only membership is observable). -/
def freeVarsC (c : Compiled) : List Str :=
  c.allVars.filter (fun n => n ∉ c.loopVars)

/-! ## Render runtime -/

/-- The generated function's local variables (`c_name` bindings). -/
abbrev Env := List (Str × Value)

/-- A render context mapping. -/
abbrev Ctx := List (Str × Value)

/-- Association-list lookup (first match). -/
def lookupS (l : List (Str × Value)) (n : Str) : Option Value :=
  match l with
  | [] => none
  | (m, v) :: rest => if m = n then some v else lookupS rest n

/-- Bind or rebind a local / context key. -/
def envSet (env : Env) (n : Str) (v : Value) : Env :=
  match env with
  | [] => [(n, v)]
  | (m, w) :: rest => if m = n then (n, v) :: rest else (m, w) :: envSet rest n v

/-- `dict.update`: entries of `b` overwrite entries of `a`. -/
def ctxMerge (a b : Ctx) : Ctx := b.foldl (fun acc p => envSet acc p.1 p.2) a

/-- `getattr(value, dot)` on the modelled values: only `vobj` carries
attributes (Python objects in the render context). -/
def attrLookup : Value → Str → Option Value
  | .vobj attrs _, d => lookupS attrs d
  | _, _ => none

/-- `value[dot]` with a string key: mappings and object item tables. -/
def itemLookup : Value → Str → Option Value
  | .vdict items, d => lookupS items d
  | .vobj _ items, d => lookupS items d
  | _, _ => none

/-- One segment of `Template._do_dots`: `getattr` first, `value[dot]` on
`AttributeError`; a failure of both raises (KeyError/TypeError in
Python, unified as `keyError` here). -/
def resolveStep (v : Value) (d : Str) : Except RErr Value :=
  match attrLookup v d with
  | some a => .ok a
  | none =>
    match itemLookup v d with
    | some x => .ok x
    | none => .error (.keyError d)

/-- The `if callable(value): value = value()` step of `_do_dots`. -/
def invokeIfCallable (v : Value) : Value :=
  match v with
  | .vfunc op => applyFn op []
  | _ => v

/-- `Template._do_dots(value, *dots)`. -/
def doDots (v : Value) : List Str → Except RErr Value
  | [] => .ok v
  | d :: rest => do
    let r ← resolveStep v d
    doDots (invokeIfCallable r) rest

mutual

/-- Evaluate a compiled expression in the generated function's locals. -/
def evalExpr (env : Env) : Expr → Except RErr Value
  | .elit s => .ok (.vstr s)
  | .evar n =>
    match lookupS env n with
    | some v => .ok v
    | none => .error (.nameError n)
  | .edots b names => do
    let v ← evalExpr env b
    doDots v names
  | .ecall f args =>
    match lookupS env f with
    | none => .error (.nameError f)
    | some fv => do
      let vs ← evalArgs env args
      match fv with
      | .vfunc op => .ok (applyFn op vs)
      | _ => .error (.typeError "object is not callable")

/-- Evaluate the argument list of a filter call, left to right. -/
def evalArgs (env : Env) : List Expr → Except RErr (List Value)
  | [] => .ok []
  | e :: rest => do
    let v ← evalExpr env e
    let vs ← evalArgs env rest
    .ok (v :: vs)

end

/-- Python iteration for the generated `for` loops. -/
def pyIter : Value → Except RErr (List Value)
  | .vlist l => .ok l
  | .vstr s => .ok (s.map (fun c => .vstr [c]))
  | .vdict d => .ok (d.map (fun p => .vstr p.1))
  | _ => .error (.typeError "object is not iterable")

/-- Trim one output chunk as the emitted whitespace-control code does:
`last_nl = chunk.rfind('\n')`; without a newline `chunk.rstrip()`, with
one `chunk[:last_nl] + chunk[last_nl:].rstrip()`. -/
def trimChunk (s : Str) : Str :=
  match rfindChar '\n' s with
  | none => pyRstrip s
  | some i => s.take i ++ pyRstrip (s.drop i)

/-- The full emitted whitespace-control code: guarded by
`if len(result) > 0`, it rewrites only `result[-1]`, the most recently
appended chunk. -/
def trimOut : List Str → List Str
  | [] => []
  | [x] => [trimChunk x]
  | x :: y :: r => x :: trimOut (y :: r)

/-- Interpreter state: the generated function's locals and the `result`
list of output chunks. -/
structure RState where
  env : Env
  out : List Str
deriving Repr

mutual

/-- Execute one generated statement.  The fuel parameter only makes the
recursion structural: every recursive call spends one unit, and `render`
supplies a bound far beyond the steps of any render appearing here. -/
def execStmt : Nat → Stmt → RState → Except RErr RState
  | 0, _, _ => .error .outOfFuel
  | fuel + 1, stmt, st =>
    match stmt, st with
    | .trim, st => .ok ⟨st.env, trimOut st.out⟩
    | .emitLit s, st => .ok ⟨st.env, st.out ++ [s]⟩
    | .emitExpr e, st => do
      let v ← evalExpr st.env e
      .ok ⟨st.env, st.out ++ [pyToStr v]⟩
    | .assign n e, st => do
      let v ← evalExpr st.env e
      .ok ⟨envSet st.env n v, st.out⟩
    | .ifStmt branches els, st => execIf fuel branches els st
    | .forStmt n e body, st => do
      let v ← evalExpr st.env e
      let items ← pyIter v
      execForLoop fuel n body items st

/-- Execute an `if`/`elif` chain with optional `else`. -/
def execIf : Nat → List (Expr × List Stmt) → Option (List Stmt) → RState →
    Except RErr RState
  | 0, _, _, _ => .error .outOfFuel
  | _ + 1, [], none, st => .ok st
  | fuel + 1, [], some b, st => execStmts fuel b st
  | fuel + 1, (c, b) :: rest, els, st => do
    let v ← evalExpr st.env c
    if truthy v then execStmts fuel b st else execIf fuel rest els st

/-- Execute a `for` body once per item, rebinding the loop variable. -/
def execForLoop : Nat → Str → List Stmt → List Value → RState →
    Except RErr RState
  | 0, _, _, _, _ => .error .outOfFuel
  | _ + 1, _, _, [], st => .ok st
  | fuel + 1, n, body, v :: vs, st => do
    let st' ← execStmts fuel body ⟨envSet st.env n v, st.out⟩
    execForLoop fuel n body vs st'

/-- Execute a statement sequence. -/
def execStmts : Nat → List Stmt → RState → Except RErr RState
  | 0, _, _ => .error .outOfFuel
  | _ + 1, [], st => .ok st
  | fuel + 1, stmt :: rest, st => do
    let st' ← execStmt fuel stmt st
    execStmts fuel rest st'

end

/-- The context-binding prologue generated by `Template.__init__` line
201: one `c_name = context['name']` per free variable; the first
missing key raises `KeyError(name)`. -/
def bindFree (ns : List Str) (ctx : Ctx) : Except RErr Env :=
  match ns with
  | [] => .ok []
  | n :: rest =>
    match lookupS ctx n with
    | none => .error (.keyError n)
    | some v => do
      let env ← bindFree rest ctx
      .ok ((n, v) :: env)

/-- Interpreter fuel used by `render`; far beyond the step count of any
render in this development (the bound is an artifact of the embedding,
not of the source program). -/
def renderFuel : Nat := 1000000000

/-- The generated `render_function(context, do_dots)`: bind the free
variables from the context, run the body, join the chunks. -/
def render (c : Compiled) (ctx : Ctx) : Except RErr Str := do
  let env ← bindFree (freeVarsC c) ctx
  let st ← execStmts renderFuel c.body ⟨env, []⟩
  .ok (strJoin st.out)

/-- `Template.render(context)`: overlay the call-site context on the
construction-time context (call site wins) and run. -/
def templateRender (c : Compiled) (initCtx callCtx : Ctx) : Except RErr Str :=
  render c (ctxMerge initCtx callCtx)

/-- Compile-and-render outcome for whole-pipeline statements. -/
inductive RunOut where
  | cerr : CErr → RunOut
  | rerr : RErr → RunOut
  | ok : Str → RunOut
deriving DecidableEq, Repr

/-- Compile a template from text and render it against a context. -/
def run (text : String) (ctx : Ctx) : RunOut :=
  match compileTemplate text with
  | .error e => .cerr e
  | .ok c =>
    match render c ctx with
    | .error e => .rerr e
    | .ok s => .ok s

/-! ## Shared lemmas -/

theorem bindFree_names :
    ∀ (ns : List Str) (ctx : Ctx) (env : Env),
      bindFree ns ctx = .ok env → env.map Prod.fst = ns := by
  intro ns
  induction ns with
  | nil =>
    intro ctx env h
    simp [bindFree] at h
    simp [← h]
  | cons n rest ih =>
    intro ctx env h
    rw [bindFree] at h
    cases hl : lookupS ctx n with
    | none => rw [hl] at h; simp at h
    | some v =>
      rw [hl] at h
      cases hb : bindFree rest ctx with
      | error e => rw [hb] at h; simp [Bind.bind, Except.bind] at h
      | ok env' =>
        rw [hb] at h
        simp [Bind.bind, Except.bind] at h
        subst h
        simp [ih ctx env' hb]

theorem bindFree_missing :
    ∀ (ns : List Str) (ctx : Ctx),
      (∃ n, n ∈ ns ∧ lookupS ctx n = none) →
      ∃ m, m ∈ ns ∧ lookupS ctx m = none ∧
        bindFree ns ctx = .error (.keyError m) := by
  intro ns
  induction ns with
  | nil => intro ctx h; obtain ⟨n, hn, -⟩ := h; simp at hn
  | cons n rest ih =>
    intro ctx h
    cases hl : lookupS ctx n with
    | none =>
      exact ⟨n, List.mem_cons_self n rest, hl, by rw [bindFree, hl]⟩
    | some v =>
      obtain ⟨k, hk, hknone⟩ := h
      have hkrest : k ∈ rest := by
        cases List.mem_cons.mp hk with
        | inl he => subst he; rw [hl] at hknone; simp at hknone
        | inr hr => exact hr
      obtain ⟨m, hm, hmnone, hberr⟩ := ih ctx ⟨k, hkrest, hknone⟩
      exact ⟨m, List.mem_cons_of_mem n hm, hmnone,
        by rw [bindFree, hl, hberr]; rfl⟩

theorem trimOut_append :
    ∀ (init : List Str) (last : Str),
      trimOut (init ++ [last]) = init ++ [trimChunk last]
  | [], _ => rfl
  | [_], _ => rfl
  | x :: y :: r, last => by
    have ih := trimOut_append (y :: r) last
    simp only [List.cons_append] at ih ⊢
    rw [trimOut, ih]

theorem rfindChar_eq_none_of_not_mem {c : Char} :
    ∀ {l : Str}, c ∉ l → rfindChar c l = none := by
  intro l
  induction l with
  | nil => intro _; rfl
  | cons a rest ih =>
    intro h
    rw [rfindChar, ih (fun hm => h (List.mem_cons_of_mem a hm))]
    simp only [List.mem_cons, not_or] at h
    simp [Ne.symm h.1]

theorem rfindChar_append_of_not_mem {b : Str} (hb : '\n' ∉ b) :
    ∀ (a : Str), rfindChar '\n' (a ++ '\n' :: b) = some a.length := by
  intro a
  induction a with
  | nil =>
    simp only [List.nil_append]
    rw [rfindChar, rfindChar_eq_none_of_not_mem hb]
    simp
  | cons x a ih =>
    simp only [List.cons_append]
    rw [rfindChar, ih]
    simp

theorem trimChunk_of_not_mem {s : Str} (h : '\n' ∉ s) :
    trimChunk s = pyRstrip s := by
  rw [trimChunk, rfindChar_eq_none_of_not_mem h]

theorem trimChunk_append {a b : Str} (hb : '\n' ∉ b) :
    trimChunk (a ++ '\n' :: b) = a ++ pyRstrip ('\n' :: b) := by
  rw [trimChunk, rfindChar_append_of_not_mem hb a]
  show List.take a.length (a ++ '\n' :: b) ++ pyRstrip (List.drop a.length (a ++ '\n' :: b)) = _
  rw [List.take_left, List.drop_left]

theorem doDots_append :
    ∀ (ds es : List Str) (v : Value),
      doDots v (ds ++ es) = (doDots v ds).bind (fun w => doDots w es) := by
  intro ds
  induction ds with
  | nil => intro es v; rfl
  | cons d ds ih =>
    intro es v
    simp only [List.cons_append]
    rw [doDots, doDots]
    cases resolveStep v d with
    | error e => rfl
    | ok r => simpa using ih es (invokeIfCallable r)

/-- A word starting with "end" is none of the other action keywords, so
`_build_code` dispatches it to the `end<kind>` branch. -/
theorem startsWith_end_ne_keywords {w : Str}
    (h : "end".data.isPrefixOf w = true) :
    w ≠ "set".data ∧ w ≠ "if".data ∧ w ≠ "elif".data ∧ w ≠ "else".data ∧
      w ≠ "for".data := by
  obtain ⟨t, ht⟩ := List.isPrefixOf_iff_prefix.mp h
  subst ht
  refine ⟨?_, ?_, ?_, ?_, ?_⟩ <;> intro hEq
  · injection hEq with h1 _; exact absurd h1 (by decide)
  · injection hEq with h1 _; exact absurd h1 (by decide)
  · injection hEq with _ h2; injection h2 with h1 _; exact absurd h1 (by decide)
  · injection hEq with _ h2; injection h2 with h1 _; exact absurd h1 (by decide)
  · injection hEq with h1 _; exact absurd h1 (by decide)

/-- C1: during compilation the Template maintains the sets `_all_vars`
and `_loop_vars`, and the prologue (line 201) binds from the external
context exactly the names in `_all_vars - _loop_vars`; classification is
by name only across the whole template, so a loop-bound name is excluded
from context binding everywhere.  The conjuncts state: membership in the
bound set is exactly membership in all minus loop; any loop variable is
never context-bound; a successful prologue binds precisely those names;
and, concretely, in `{{ x }}{% for x in items %} {% endfor %}` the name
`x` (used at top level, outside any loop) is excluded from binding and
rendering fails with an unbound-local error even when `x` is in the
context. -/
theorem c1_prologue_binds_all_minus_loop :
    (∀ (text : String) (c : Compiled), compileTemplate text = .ok c →
      ((∀ n : Str, n ∈ freeVarsC c ↔ (n ∈ c.allVars ∧ n ∉ c.loopVars)) ∧
       (∀ n : Str, n ∈ c.loopVars → n ∉ freeVarsC c) ∧
       (∀ (ctx : Ctx) (env : Env), bindFree (freeVarsC c) ctx = .ok env →
         env.map Prod.fst = freeVarsC c))) ∧
    compileTemplate "\x7b\x7b x \x7d\x7d\x7b% for x in items %\x7d \x7b% endfor %\x7d" =
      .ok ⟨[Stmt.emitExpr (Expr.evar "x".data),
            Stmt.forStmt "x".data (Expr.evar "items".data) [Stmt.emitLit [' ']]],
           ["x".data, "items".data], ["x".data]⟩ ∧
    freeVarsC ⟨[Stmt.emitExpr (Expr.evar "x".data),
                Stmt.forStmt "x".data (Expr.evar "items".data) [Stmt.emitLit [' ']]],
               ["x".data, "items".data], ["x".data]⟩ = ["items".data] ∧
    run "\x7b\x7b x \x7d\x7d\x7b% for x in items %\x7d \x7b% endfor %\x7d"
        [("x".data, .vstr "hi".data), ("items".data, .vlist [])] =
      .rerr (.nameError "x".data) := by
  refine ⟨?_, rfl, rfl, rfl⟩
  intro text c _
  refine ⟨?_, ?_, bindFree_names (freeVarsC c)⟩
  · intro n
    simp [freeVarsC, List.mem_filter]
  · intro n hn hfree
    rw [freeVarsC, List.mem_filter] at hfree
    exact absurd hn (by simpa using hfree.2)

/-- C1 witness: the characterization applied to the concrete template
`{{ a }}`. -/
theorem c1_prologue_binds_all_minus_loop_witness :
    "a".data ∈ freeVarsC ⟨[Stmt.emitExpr (Expr.evar "a".data)], ["a".data], []⟩ ↔
      ("a".data ∈ (["a".data] : List Str) ∧ "a".data ∉ ([] : List Str)) :=
  (c1_prologue_binds_all_minus_loop.1 "\x7b\x7b a \x7d\x7d"
    ⟨[Stmt.emitExpr (Expr.evar "a".data)], ["a".data], []⟩ rfl).1 "a".data

/-- C3 counterexample: rendering `"line1\n{%- if true %}\nX{% endif %}"`
with a truthy condition yields `"line1\nX"`, not the claimed
`"line1X"`: the newline of the literal `"\nX"` that follows the opening
marker is kept. -/
theorem c3_trim_example_counterexample :
    run "line1\n\x7b%- if true %\x7d\nX\x7b% endif %\x7d"
        [("true".data, .vbool true)] = .ok "line1\nX".data ∧
    "line1\nX".data ≠ "line1X".data :=
  ⟨rfl, by decide⟩

/-- C3 (amended): rendering the template with a truthy condition produces
`"line1\nX"`: the trim marker removes the trailing newline of the
already-emitted literal `"line1\n"` and affects only already-emitted
output; the newline that begins the literal after the marker is kept, so
one newline remains between `line1` and `X`.  The compiled body shows the
trim statement sits between the emitted literal and the branch. -/
theorem c3_trim_example_amended :
    run "line1\n\x7b%- if true %\x7d\nX\x7b% endif %\x7d"
        [("true".data, .vbool true)] = .ok "line1\nX".data ∧
    trimOut ["line1\n".data] = ["line1".data] ∧
    compileTemplate "line1\n\x7b%- if true %\x7d\nX\x7b% endif %\x7d" =
      .ok ⟨[Stmt.emitLit "line1\n".data, Stmt.trim,
            Stmt.ifStmt [(Expr.evar "true".data, [Stmt.emitLit "\nX".data])] none],
           ["true".data], []⟩ :=
  ⟨rfl, rfl, rfl⟩

/-- C10: applying whitespace control when no output has been accumulated
is a no-op and raises no error: the emitted code is guarded by
`if len(result) > 0`.  A template beginning with a trim marker compiles
to a leading trim statement and renders without error. -/
theorem c10_trim_empty_output_noop :
    trimOut [] = [] ∧
    (∀ (fuel : Nat) (env : Env),
      execStmt (fuel + 1) .trim ⟨env, []⟩ = .ok ⟨env, []⟩) ∧
    compileTemplate "\x7b\x7b- x \x7d\x7d" =
      .ok ⟨[Stmt.trim, Stmt.emitExpr (Expr.evar "x".data)], ["x".data], []⟩ ∧
    run "\x7b\x7b- x \x7d\x7d" [("x".data, .vstr "hi".data)] = .ok "hi".data :=
  ⟨rfl, fun _ _ => rfl, rfl, rfl⟩

/-- Projection used in counterexamples: the `_all_vars` set of a
successful compilation. -/
def allVarsOf : Except CErr Compiled → Option (List Str)
  | .ok c => some c.allVars
  | .error _ => none

/-- C2 counterexample: compiling `{% set x = 1 %}` succeeds, yet `x` is
not registered in the all-variables set (the code calls
`self._variable(words[1], None)`, which only validates the name), so the
all-variables set stays empty — contradicting the claim that a
successful `set` registers the name. -/
theorem c2_set_registers_name_counterexample :
    compileTemplate "\x7b% set x = 1 %\x7d" =
      .ok ⟨[Stmt.assign "x".data (Expr.elit "1".data)], [], []⟩ ∧
    allVarsOf (compileTemplate "\x7b% set x = 1 %\x7d") = some [] ∧
    "x".data ∉ ([] : List Str) :=
  ⟨rfl, rfl, by decide⟩

/-- C2 (amended): compiling `set <name> = <expr...>` succeeds only when
the third token is `=` and at least one expression token follows
(otherwise a "Don't understand set" syntax error); a successful `set`
validates `<name>` as an identifier but registers it in no variable set
— only the names inside the expression are registered, exactly the
registrations made by the expression compiler. -/
theorem c2_set_syntax_and_no_registration :
    (∀ (content : Str) (args : List Str) (frames : List Frame)
       (cur : List Stmt) (st : CompSt),
      (args.length < 3 ∨ args.get? 1 ≠ some "=".data) →
      dispatchAction content ("set".data :: args) frames cur st =
        .error (.stxError "Don\x27t understand set" content)) ∧
    (∀ (content name e0 : Str) (es : List Str) (frames : List Frame)
       (cur : List Stmt) (st : CompSt) (ex : Expr) (st' : CompSt),
      isValidName name = true →
      exprCodeTop (joinSp (e0 :: es)) st = .ok (ex, st') →
      dispatchAction content ("set".data :: name :: "=".data :: e0 :: es)
          frames cur st =
        .ok (frames, cur ++ [.assign name ex], st')) ∧
    compileTemplate "\x7b% set x = y %\x7d" =
      .ok ⟨[Stmt.assign "x".data (Expr.evar "y".data)], ["y".data], []⟩ := by
  refine ⟨?_, ?_, rfl⟩
  · intro content args frames cur st h
    rcases args with _ | ⟨n, args⟩
    · rfl
    rcases args with _ | ⟨eqw, args⟩
    · rfl
    rcases args with _ | ⟨e0, es⟩
    · rfl
    have heq : eqw ≠ "=".data := by
      rcases h with h | h
      · exfalso; simp only [List.length_cons] at h; omega
      · simpa using h
    simp [dispatchAction, heq]
  · intro content name e0 es frames cur st ex st' hname hexpr
    simp [dispatchAction, variableCheck, hname, hexpr, Bind.bind, Except.bind]

/-- C2 witness: the amended behaviour at concrete inputs — `set x 1`
fails with the set syntax error, `set x = 1` emits the assignment
without registering `x`. -/
theorem c2_set_syntax_and_no_registration_witness :
    dispatchAction "set x 1".data ["set".data, "x".data, "1".data]
        [] [] initCompSt =
      .error (.stxError "Don\x27t understand set" "set x 1".data) ∧
    dispatchAction "set x = 1".data
        ["set".data, "x".data, "=".data, "1".data] [] [] initCompSt =
      .ok ([], [.assign "x".data (.elit "1".data)], initCompSt) :=
  ⟨c2_set_syntax_and_no_registration.1 "set x 1".data ["x".data, "1".data]
      [] [] initCompSt (Or.inl (by decide)),
   c2_set_syntax_and_no_registration.2.1 "set x = 1".data "x".data "1".data
      [] [] [] initCompSt (.elit "1".data) initCompSt (by decide) rfl⟩

/-- Trimming as the spec describes it, applied to the entire accumulated
output: strip trailing whitespace up to and including the previous
newline, or all trailing whitespace when the output contains no newline.
This definition follows the words of the specification, to be compared
with the per-chunk `trimOut` the code implements. -/
def specTrimAccumulated (s : Str) : Str :=
  match rfindChar '\n' s with
  | none => pyRstrip s
  | some i => s.take i ++ pyRstrip (s.drop i)

/-- C4 counterexample: the emitted trim code rewrites only `result[-1]`,
the most recently appended chunk, not the entire accumulated output.
With accumulated chunks `["a\n", "  "]` (produced by the template
`"a\n{# c #}  {{- x }}"`, where the comment splits the literal text into
two chunks), the code trims the last chunk to `""` and the joined output
keeps `"a\n"`, while trimming the entire accumulated output `"a\n  "`
as claimed would give `"a"`; the rendered output is `"a\nX"`, not the
claimed `"aX"`. -/
theorem c4_trim_whole_output_counterexample :
    strJoin (trimOut ["a\n".data, "  ".data]) = "a\n".data ∧
    specTrimAccumulated (strJoin ["a\n".data, "  ".data]) = "a".data ∧
    "a\n".data ≠ "a".data ∧
    run "a\n\x7b# c #\x7d  \x7b\x7b- x \x7d\x7d" [("x".data, .vstr "X".data)] =
      .ok "a\nX".data ∧
    specTrimAccumulated "a\n  ".data ++ "X".data = "aX".data :=
  ⟨rfl, rfl, by decide, rfl, rfl⟩

/-- C4 (amended): for every token whose character after the opening
delimiter is `-`, the compiler emits a trim step before the marker's
effect; at render time the trim rewrites only the most recently appended
output chunk: within that chunk, if it contains no newline all its
trailing whitespace is stripped, otherwise the whitespace after its last
newline is stripped together with that newline; earlier chunks and
literal text after the marker are never modified. -/
theorem c4_trim_last_chunk_only :
    (∀ (init : List Str) (last : Str),
      trimOut (init ++ [last]) = init ++ [trimChunk last]) ∧
    (∀ s : Str, '\n' ∉ s → trimChunk s = pyRstrip s) ∧
    (∀ a b : Str, '\n' ∉ b →
      trimChunk (a ++ '\n' :: b) = a ++ pyRstrip ('\n' :: b)) ∧
    (∀ tok : Str, (tok.drop 2).head? = some '-' → (wsControl tok).1 = true) ∧
    (∀ (fuel : Nat) (st : RState),
      execStmt (fuel + 1) .trim st = .ok ⟨st.env, trimOut st.out⟩) := by
  refine ⟨trimOut_append, fun s h => trimChunk_of_not_mem h,
    fun a b h => trimChunk_append h, ?_, fun _ _ => rfl⟩
  intro tok h
  rw [wsControl, if_pos h]

/-- C4 witness: the amended behaviour at concrete inputs. -/
theorem c4_trim_last_chunk_only_witness :
    trimOut (["a\n".data] ++ ["  ".data]) = ["a\n".data] ++ [trimChunk "  ".data] ∧
    trimChunk "  x  ".data = pyRstrip "  x  ".data ∧
    trimChunk ("ab".data ++ '\n' :: "  ".data) =
      "ab".data ++ pyRstrip ('\n' :: "  ".data) ∧
    (wsControl "\x7b\x7b- x \x7d\x7d".data).1 = true :=
  ⟨c4_trim_last_chunk_only.1 ["a\n".data] "  ".data,
   c4_trim_last_chunk_only.2.1 "  x  ".data (by decide),
   c4_trim_last_chunk_only.2.2.1 "ab".data "  ".data (by decide),
   c4_trim_last_chunk_only.2.2.2.1 "\x7b\x7b- x \x7d\x7d".data (by decide)⟩

/-- C5 counterexample: the integer branch of `_expr_code` emits
`repr(expr)` — a Python *string* literal holding the digit text, not an
integer literal.  The compiled computation for `0` evaluates to the
string `"0"`, not the integer `0`; observable because the nonempty
string `"0"` is truthy, so `{% if 0 %}Y{% endif %}` renders `"Y"`, while
an integer `0` would be falsy. -/
theorem c5_integer_literal_counterexample :
    exprCodeTop "0".data initCompSt = .ok (.elit "0".data, initCompSt) ∧
    evalExpr [] (.elit "0".data) = .ok (.vstr "0".data) ∧
    Value.vstr "0".data ≠ Value.vint 0 ∧
    run "\x7b% if 0 %\x7dY\x7b% endif %\x7d" [] = .ok "Y".data := by
  refine ⟨rfl, rfl, ?_, rfl⟩
  intro h
  exact Value.noConfusion h

/-- Helper for C5: with any positive fuel, an expression that is already
stripped, contains no pipe or dot, and parses as an integer compiles to
a string literal holding the expression text itself. -/
theorem exprCode_int_literal (fuel : Nat) (s : Str) (st : CompSt)
    (hstrip : pyStrip s = s) (hpipe : '|' ∉ s) (hdot : '.' ∉ s)
    (hint : pyIsInt s = true) :
    exprCode (fuel + 1) s st = .ok (.elit s, st) := by
  have hne : s ≠ [] := by
    cases s with
    | nil => simp [pyIsInt] at hint
    | cons a l => simp
  rw [exprCode]
  simp [hstrip, hpipe, hdot, hint, hne]

/-- C5 (amended): every expression with no top-level pipe or dot that
parses as a base-10 integer compiles to a *string* literal containing
the digit text; the compiled computation evaluates to that string (which
prints identically to the integer but is not an integer value). -/
theorem c5_integer_compiles_to_string_literal :
    ∀ (s : Str) (st : CompSt),
      pyStrip s = s → '|' ∉ s → '.' ∉ s → pyIsInt s = true →
      exprCodeTop s st = .ok (.elit s, st) ∧
      (∀ env : Env, evalExpr env (.elit s) = .ok (.vstr s)) := by
  intro s st h1 h2 h3 h4
  exact ⟨exprCode_int_literal (2 * s.length + 1) s st h1 h2 h3 h4,
    fun _ => rfl⟩

/-- C5 witness: the amended claim at the concrete expression `-42`. -/
theorem c5_integer_compiles_to_string_literal_witness :
    exprCodeTop "-42".data initCompSt = .ok (.elit "-42".data, initCompSt) ∧
    evalExpr [] (.elit "-42".data) = .ok (.vstr "-42".data) :=
  ⟨(c5_integer_compiles_to_string_literal "-42".data initCompSt
      (by decide) (by decide) (by decide) (by decide)).1,
   (c5_integer_compiles_to_string_literal "-42".data initCompSt
      (by decide) (by decide) (by decide) (by decide)).2 []⟩

/-- C6: the pipe compiler threads the seed as the filter's first
positional argument.  Compiling `x | f(p,q)` yields the call
`c_f(c_x, c_p, c_q)` and its evaluation equals applying `f`'s value to
`[seed, a, b]`; compiling `x | f` yields `c_f(c_x)` evaluating to the
application of `f` to `[seed]`; across a chain `x | f | g(p)` the
threading proceeds left to right, `g(f(x), p)`.  The argument values
and the callables' operations are universally quantified. -/
theorem c6_pipe_threads_seed_first :
    ∀ (env : Env) (op op2 : FnOp) (sv av bv : Value),
      lookupS env "f".data = some (.vfunc op) →
      lookupS env "g".data = some (.vfunc op2) →
      lookupS env "x".data = some sv →
      lookupS env "p".data = some av →
      lookupS env "q".data = some bv →
      (exprCodeTop "x | f(p,q)".data initCompSt =
        .ok (.ecall "f".data [.evar "x".data, .evar "p".data, .evar "q".data],
             ⟨["x".data, "f".data, "p".data, "q".data], [], false⟩) ∧
       evalExpr env
           (.ecall "f".data [.evar "x".data, .evar "p".data, .evar "q".data]) =
         .ok (applyFn op [sv, av, bv])) ∧
      (exprCodeTop "x | f".data initCompSt =
        .ok (.ecall "f".data [.evar "x".data],
             ⟨["x".data, "f".data], [], false⟩) ∧
       evalExpr env (.ecall "f".data [.evar "x".data]) =
         .ok (applyFn op [sv])) ∧
      (exprCodeTop "x | f | g(p)".data initCompSt =
        .ok (.ecall "g".data [.ecall "f".data [.evar "x".data], .evar "p".data],
             ⟨["x".data, "f".data, "g".data, "p".data], [], false⟩) ∧
       evalExpr env
           (.ecall "g".data [.ecall "f".data [.evar "x".data], .evar "p".data]) =
         .ok (applyFn op2 [applyFn op [sv], av])) := by
  intro env op op2 sv av bv hf hg hx hp hq
  refine ⟨⟨rfl, ?_⟩, ⟨rfl, ?_⟩, ⟨rfl, ?_⟩⟩ <;>
    simp [evalExpr, evalArgs, hf, hg, hx, hp, hq, Bind.bind, Except.bind]

/-- C6 witness: the threading observed with the argument-packing callable
in a concrete environment. -/
theorem c6_pipe_threads_seed_first_witness :
    evalExpr [("f".data, .vfunc .packFn), ("g".data, .vfunc .packFn),
              ("x".data, .vstr "s".data), ("p".data, .vint 1),
              ("q".data, .vint 2)]
        (.ecall "f".data [.evar "x".data, .evar "p".data, .evar "q".data]) =
      .ok (.vlist [.vstr "s".data, .vint 1, .vint 2]) :=
  ((c6_pipe_threads_seed_first
      [("f".data, .vfunc .packFn), ("g".data, .vfunc .packFn),
       ("x".data, .vstr "s".data), ("p".data, .vint 1), ("q".data, .vint 2)]
      .packFn .packFn (.vstr "s".data) (.vint 1) (.vint 2)
      rfl rfl rfl rfl rfl).1).2

/-- C7: block-structure errors of `_build_code`: an `end<kind>` token
with an empty control stack fails with "Too many ends"; an `end<kind>`
whose kind differs from the popped open block's kind fails with
"Mismatched end tag" naming the end kind; end of input with a non-empty
control stack fails with "Unmatched action tag" naming the kind on top
of the stack.  Concretely: `{% if a %}` alone, a stray `{% endif %}`,
and `{% if a %}x{% endfor %}` fail with exactly these errors. -/
theorem c7_unbalanced_block_errors :
    (∀ (content w : Str) (cur : List Stmt) (st : CompSt),
      "end".data.isPrefixOf w = true →
      dispatchAction content [w] [] cur st =
        .error (.stxError "Too many ends" content)) ∧
    (∀ (content w : Str) (f : Frame) (fs : List Frame) (cur : List Stmt)
       (st : CompSt),
      "end".data.isPrefixOf w = true →
      frameKind f ≠ w.drop 3 →
      dispatchAction content [w] (f :: fs) cur st =
        .error (.stxError "Mismatched end tag" (w.drop 3))) ∧
    (∀ (f : Frame) (fs : List Frame) (cur : List Stmt) (st : CompSt),
      buildLoop [] (f :: fs) cur st =
        .error (.stxError "Unmatched action tag" (frameKind f))) ∧
    compileTemplate "\x7b% if a %\x7d" =
      .error (.stxError "Unmatched action tag" "if".data) ∧
    compileTemplate "x\x7b% endif %\x7d" =
      .error (.stxError "Too many ends" "endif".data) ∧
    compileTemplate "\x7b% if a %\x7dx\x7b% endfor %\x7d" =
      .error (.stxError "Mismatched end tag" "for".data) := by
  refine ⟨?_, ?_, fun _ _ _ _ => rfl, rfl, rfl, rfl⟩
  · intro content w cur st h
    obtain ⟨h1, h2, h3, h4, h5⟩ := startsWith_end_ne_keywords h
    simp [dispatchAction, h, h1, h2, h3, h4, h5]
  · intro content w f fs cur st h hk
    obtain ⟨h1, h2, h3, h4, h5⟩ := startsWith_end_ne_keywords h
    simp [dispatchAction, h, h1, h2, h3, h4, h5, hk]

/-- C7 witness: the three failure modes at concrete inputs. -/
theorem c7_unbalanced_block_errors_witness :
    dispatchAction "endif".data ["endif".data] [] [] initCompSt =
      .error (.stxError "Too many ends" "endif".data) ∧
    dispatchAction "endfor".data ["endfor".data] [Frame.fif [] [] none] []
        initCompSt =
      .error (.stxError "Mismatched end tag" "for".data) ∧
    buildLoop [] [Frame.ffor [] "i".data (.elit [])] [] initCompSt =
      .error (.stxError "Unmatched action tag" "for".data) :=
  ⟨c7_unbalanced_block_errors.1 "endif".data "endif".data [] initCompSt
      (by decide),
   c7_unbalanced_block_errors.2.1 "endfor".data "endfor".data
      (Frame.fif [] [] none) [] [] initCompSt (by decide) (by decide),
   c7_unbalanced_block_errors.2.2.1 (Frame.ffor [] "i".data (.elit []))
      [] [] initCompSt⟩

/-- C8: when the free-variable set of a compiled template contains a name
absent from the merged render context, `render` fails with a `KeyError`
naming a missing variable, raised by the context-binding prologue before
any statement of the template body executes — the same error results for
every body sharing the template's variable sets.  Concretely,
`render("{{ missing }}", {})` fails with `KeyError("missing")`. -/
theorem c8_missing_free_variable_fails :
    (∀ (text : String) (c : Compiled) (initCtx callCtx : Ctx),
      compileTemplate text = .ok c →
      (∃ n, n ∈ freeVarsC c ∧ lookupS (ctxMerge initCtx callCtx) n = none) →
      ∃ m, m ∈ freeVarsC c ∧ lookupS (ctxMerge initCtx callCtx) m = none ∧
        (∀ body' : List Stmt,
          templateRender ⟨body', c.allVars, c.loopVars⟩ initCtx callCtx =
            .error (.keyError m))) ∧
    run "\x7b\x7b missing \x7d\x7d" [] = .rerr (.keyError "missing".data) := by
  refine ⟨?_, rfl⟩
  intro text c initCtx callCtx _ hmiss
  obtain ⟨m, hm, hmnone, hberr⟩ :=
    bindFree_missing (freeVarsC c) (ctxMerge initCtx callCtx) hmiss
  refine ⟨m, hm, hmnone, ?_⟩
  intro body'
  have : bindFree (freeVarsC ⟨body', c.allVars, c.loopVars⟩)
      (ctxMerge initCtx callCtx) = .error (.keyError m) := hberr
  simp [templateRender, render, this, Bind.bind, Except.bind]

/-- C8 witness: the compiled `{{ missing }}` rendered against the empty
merged context fails with the lookup error naming `missing`, whatever
body is attached to its variable sets. -/
theorem c8_missing_free_variable_fails_witness :
    templateRender ⟨[Stmt.emitExpr (Expr.evar "missing".data)],
        ["missing".data], []⟩ [] [] =
      .error (.keyError "missing".data) := by
  obtain ⟨m, hm, -, hr⟩ :=
    c8_missing_free_variable_fails.1 "\x7b\x7b missing \x7d\x7d"
      ⟨[Stmt.emitExpr (Expr.evar "missing".data)], ["missing".data], []⟩
      [] [] rfl ⟨"missing".data, by decide, rfl⟩
  have hm' : m = "missing".data := by
    simpa [freeVarsC] using hm
  subst hm'
  exact hr [Stmt.emitExpr (Expr.evar "missing".data)]

/-- C9: in `_do_dots`, each segment resolves by attribute lookup first,
falling back to item lookup only when attribute lookup fails, and raising
a lookup error naming the segment when both fail; after every resolved
segment — including the final one — a callable value is invoked with no
arguments, so a dotted expression whose last resolved value is callable
yields the call's return value, never the callable itself. -/
theorem c9_do_dots_attr_first_auto_invoke :
    (∀ (attrs items : List (Str × Value)) (d : Str) (a : Value),
      lookupS attrs d = some a →
      resolveStep (.vobj attrs items) d = .ok a) ∧
    (∀ (attrs items : List (Str × Value)) (d : Str) (x : Value),
      lookupS attrs d = none → lookupS items d = some x →
      resolveStep (.vobj attrs items) d = .ok x) ∧
    (∀ (attrs items : List (Str × Value)) (d : Str),
      lookupS attrs d = none → lookupS items d = none →
      resolveStep (.vobj attrs items) d = .error (.keyError d)) ∧
    (∀ (v : Value) (d : Str) (rest : List Str),
      doDots v (d :: rest) =
        (resolveStep v d).bind (fun r => doDots (invokeIfCallable r) rest)) ∧
    (∀ (u : Value) (ds : List Str) (v : Value) (d : Str) (op : FnOp),
      doDots u ds = .ok v → resolveStep v d = .ok (.vfunc op) →
      doDots u (ds ++ [d]) = .ok (applyFn op [])) := by
  refine ⟨?_, ?_, ?_, ?_, ?_⟩
  · intro attrs items d a ha
    simp [resolveStep, attrLookup, ha]
  · intro attrs items d x ha hi
    simp [resolveStep, attrLookup, itemLookup, ha, hi]
  · intro attrs items d ha hi
    simp [resolveStep, attrLookup, itemLookup, ha, hi]
  · intro v d rest
    rw [doDots]
    rfl
  · intro u ds v d op hok hres
    rw [doDots_append, hok]
    show doDots v [d] = _
    rw [doDots]
    simp [hres, invokeIfCallable, Bind.bind, Except.bind, doDots]

/-- C9 witness: attribute lookup shadows an item of the same name, and a
final callable segment is auto-invoked, returning its result rather than
the callable. -/
theorem c9_do_dots_attr_first_auto_invoke_witness :
    resolveStep (.vobj [("k".data, .vstr "A".data)] [("k".data, .vstr "B".data)])
        "k".data = .ok (.vstr "A".data) ∧
    doDots (.vobj [("m".data, .vfunc (.constStr "hi".data))] []) ["m".data] =
      .ok (.vstr "hi".data) :=
  ⟨c9_do_dots_attr_first_auto_invoke.1 [("k".data, .vstr "A".data)]
      [("k".data, .vstr "B".data)] "k".data (.vstr "A".data) rfl,
   c9_do_dots_attr_first_auto_invoke.2.2.2.2
      (.vobj [("m".data, .vfunc (.constStr "hi".data))] []) []
      (.vobj [("m".data, .vfunc (.constStr "hi".data))] [])
      "m".data (.constStr "hi".data) rfl rfl⟩
